import Mathlib

/-!
Shallow embedding of `scripts/filecounter/filecounter.py` (terraref/pipeline).

The program is Python 2 (`import thread`, `dict.iteritems`), which matters in
two places that the embedding keeps faithful to the source:
  * `/` on two ints is floor division, so
    `float(counts[child]/counts[parent])` (line 250) is the floor quotient
    converted to a float — an integer-valued float, modelled exactly as the
    rational obtained by casting the natural-number quotient;
  * `pandas` tables created by `pd.DataFrame(columns=cols)`,
    `pd.read_csv(path)` (no `index_col`) and `df.append(..., ignore_index=True)`
    all carry an integer `RangeIndex`, so the membership test
    `'date' in df.index` (line 254) asks whether the *string* `'date'` is one
    of the integer index labels.

External effects (file system, regular-expression engine, postgres
connection) are passed in as explicit parameters; fallible operations
(postgres queries, Python dict subscripting that can raise `KeyError`)
return `Except String`.
-/

namespace FileCounter

/-! ## Count definitions (lines 27-73)

`count_defs` maps a sensor (pipeline) name to an ordered dict of stage
definitions.  A stage definition is a Python dict with a `type` key and,
depending on the type, `path`, `regex`, `query` and `parent` keys; keys that
a given type never reads are modelled by a `""` default. -/

inductive CountType
  | timestamp
  | regex
  | psql
  deriving DecidableEq, Repr

structure TargetDef where
  type : CountType
  path : String := ""
  regex : String := ""
  query : String := ""
  parent : Option String := none
  deriving DecidableEq, Repr

def sites_root : String := "/home/filecounter/"

/-- `os.path.join(a, b)` for the arguments this program produces: every
configured `path` is absolute and the appended component (a date string or a
directory entry) is relative, so join inserts a `/` separator unless `a`
already ends in one. -/
def pathJoin (a b : String) : String :=
  if a.data.getLast? = some '/' then a ++ b else a ++ "/" ++ b

/-- One left-to-right pass of Python `%`-formatting: `%s` becomes the
argument, `%%` becomes a literal `%`, every other character is kept. -/
def percentFormat (arg : List Char) : List Char → List Char
  | [] => []
  | '%' :: 's' :: rest => arg ++ percentFormat arg rest
  | '%' :: '%' :: rest => '%' :: percentFormat arg rest
  | c :: rest => c :: percentFormat arg rest

/-- Python `%`-formatting of a query template (line 188, `query % date`). -/
def pyFormat (q date : String) : String :=
  ⟨percentFormat date.data q.data⟩

/-- The `stereoTop` pipeline of `count_defs` (lines 29-50). -/
def stereoTop_targets : List (String × TargetDef) :=
  [ ("stereoTop",
      { type := .timestamp
        path := sites_root ++ "sites/ua-mac/raw_data/stereoTop/" }),
    ("bin2tif",
      { type := .timestamp
        path := sites_root ++ "sites/ua-mac/Level_1/rgb_geotiff/"
        parent := some "stereoTop" }),
    ("rulechecker",
      { type := .psql
        query := "select count(distinct file_path) from extractor_ids where output like 'Full Field -- RGB GeoTIFFs - %s%%';"
        parent := some "bin2tif" }),
    ("fullfield",
      { type := .regex
        path := sites_root ++ "sites/ua-mac/Level_1/fullfield/"
        regex := "^.*\\d+_rgb_.*thumb.tif" }),
    ("canopycover",
      { type := .regex
        path := sites_root ++ "sites/ua-mac/Level_1/fullfield/"
        regex := ""
        parent := some "fullfield" }) ]

/-- The `flirIrCamera` pipeline of `count_defs` (lines 51-72). -/
def flirIrCamera_targets : List (String × TargetDef) :=
  [ ("flirIrCamera",
      { type := .timestamp
        path := sites_root ++ "sites/ua-mac/raw_data/flirIrCamera/" }),
    ("flir2tif",
      { type := .timestamp
        path := sites_root ++ "sites/ua-mac/Level_1/ir_geotiff/"
        parent := some "flirIrCamera" }),
    ("rulechecker",
      { type := .psql
        query := "select count(distinct file_path) from extractor_ids where output like 'Full Field -- Thermal IR GeoTIFFs - %s%%';"
        parent := some "flir2tif" }),
    ("fullfield",
      { type := .regex
        path := sites_root ++ "sites/ua-mac/Level_1/fullfield/"
        regex := "^.*\\d+_ir_.*thumb.tif" }),
    ("meantemp",
      { type := .regex
        path := sites_root ++ "sites/ua-mac/Level_1/fullfield/"
        regex := ""
        parent := some "fullfield" }) ]

/-! ## External-effect parameters -/

/-- The slice of the file system the counter reads: `os.path.exists` and
`os.listdir`. -/
structure FS where
  pathExists : String → Bool
  listdir : String → List String

/-- A postgres connection: executing a query either raises
(`psycopg2` error, modelled as `Except.error`) or yields the first column of
each result row. -/
def Conn : Type := String → Except String (List Nat)

/-- A file system with no date directories at all. -/
def emptyFS : FS :=
  { pathExists := fun _ => false
    listdir := fun _ => [] }

/-- An `re.match` oracle: `matches pattern name` decides whether the regular
expression matches at the start of `name`.  The regex engine itself is
outside the embedding; theorems hold for every oracle. -/
def RegexOracle : Type := String → String → Bool

def noMatch : RegexOracle := fun _ _ => false

/-- A connection whose every query succeeds with a single row `[0]`. -/
def okConn : Conn := fun _ => .ok [0]

/-- A connection whose every query raises. -/
def failConn : Conn := fun _ => .error "connection failure"

/-! ## perform_count (lines 169-194) -/

/-- `perform_count(target_def, date, conn)`: returns the count for one stage
definition on one date.  The `timestamp` and `regex` branches return 0 when
the date directory does not exist; the `psql` branch executes the formatted
query and keeps the first column of the last result row (count stays 0 for an
empty cursor), propagating any query/connection error. -/
def perform_count (fs : FS) (m : RegexOracle) (conn : Conn)
    (target_def : TargetDef) (date : String) : Except String Nat :=
  match target_def.type with
  | .timestamp =>
      let date_dir := pathJoin target_def.path date
      if fs.pathExists date_dir then .ok (fs.listdir date_dir).length
      else .ok 0
  | .regex =>
      let date_dir := pathJoin target_def.path date
      if fs.pathExists date_dir then
        .ok ((fs.listdir date_dir).map (fun timestamp =>
          ((fs.listdir (pathJoin date_dir timestamp)).filter
            (fun file => m target_def.regex file)).length)).sum
      else .ok 0
  | .psql => do
      let results ← conn (pyFormat target_def.query date)
      pure (results.foldl (fun _ r => r) 0)

/-! ## Python dicts

`counts` and `percentages` (lines 239-240) are Python dicts; assignment
overwrites an existing key in place or appends a new one (insertion order is
preserved), and subscripting a missing key raises `KeyError`. -/

def dictSet {α : Type} (d : List (String × α)) (k : String) (v : α) :
    List (String × α) :=
  if (d.lookup k).isSome then
    d.map (fun kv => if kv.1 = k then (k, v) else kv)
  else d ++ [(k, v)]

def dictGet {α : Type} (d : List (String × α)) (k : String) :
    Except String α :=
  match d.lookup k with
  | some v => .ok v
  | none => .error ("KeyError: " ++ k)

/-! ## The per-date count/percentage pass (lines 242-252) -/

/-- Lines 249-252: `float(counts[child]/counts[parent])` under Python 2 floor
division when the parent count is positive, else `0`.  The float of a
floor quotient of machine-size ints is exact, so the stored value is the
rational cast of the natural-number quotient. -/
def pct (child parent : Nat) : ℚ :=
  if parent > 0 then ((child / parent : Nat) : ℚ) else 0

/-- Lines 242-252: iterate the stage definitions in order; store each stage's
count under its name; for a stage with a parent, compute the parent's count
on demand if it is not memoized yet, then store the percentage under the
stage's name.  Any `perform_count` failure or missing dict key propagates. -/
def computeDate (fs : FS) (m : RegexOracle) (conn : Conn)
    (targets : List (String × TargetDef)) (date : String) :
    Except String (List (String × Nat) × List (String × ℚ)) :=
  targets.foldlM
    (fun (acc : List (String × Nat) × List (String × ℚ)) t => do
      let (counts, percentages) := acc
      let c ← perform_count fs m conn t.2 date
      let counts := dictSet counts t.1 c
      match t.2.parent with
      | none => pure (counts, percentages)
      | some par => do
          let counts ←
            match counts.lookup par with
            | some _ => pure counts
            | none => do
                let parentDef ← dictGet targets par
                let pc ← perform_count fs m conn parentDef date
                pure (dictSet counts par pc)
          let cc ← dictGet counts t.1
          let pc ← dictGet counts par
          pure (counts, dictSet percentages t.1 (pct cc pc)))
    ([], [])

/-! ## The pandas table (lines 223-277)

A row stores the date plus one cell per stage count and one per percentage
column (`{stage}%`).  A `DataFrame` additionally carries its index labels,
because line 254 tests `'date' in df.index`: for every table this program
builds the labels are the integers of a `RangeIndex`, never strings. -/

inductive IdxLabel
  | nat (n : Nat)
  | str (s : String)
  deriving DecidableEq, Repr

structure Row where
  date : String
  counts : List (String × Nat)
  percentages : List (String × ℚ)
  deriving DecidableEq, Repr

structure DataFrame where
  index : List IdxLabel
  rows : List Row
  deriving DecidableEq, Repr

/-- Lines 224-235: load the existing CSV (`pd.read_csv` with its default
integer `RangeIndex`) or create a fresh empty frame with the pipeline's
column schema (empty index). -/
def load_df (persisted : Option (List Row)) : DataFrame :=
  match persisted with
  | some rows => { index := (List.range rows.length).map .nat, rows := rows }
  | none => { index := [], rows := [] }

/-- Line 275: `df.append(pd.Series(new_entry, index=indices),
ignore_index=True)` appends the row and renumbers the index `0..n`. -/
def dfAppendIgnoreIndex (df : DataFrame) (r : Row) : DataFrame :=
  { index := (List.range (df.rows.length + 1)).map .nat
    rows := df.rows ++ [r] }

/-- Line 254: `'date' in df.index and (df['date'] == current_date).any()`. -/
def update_guard (df : DataFrame) (date : String) : Bool :=
  df.index.contains (IdxLabel.str "date")
    && df.rows.any (fun r => r.date == date)

/-- Lines 255-259, the "update existing row" branch: for each stage, write
its count into every row whose date matches; for a stage with a parent,
write `percentages[stage + '%']` — a key the dict never holds (line 250
stores under the bare stage name), so this subscript raises `KeyError`. -/
def updateExistingRows (targets : List (String × TargetDef)) (date : String)
    (counts : List (String × Nat)) (percentages : List (String × ℚ))
    (rows : List Row) : Except String (List Row) :=
  targets.foldlM
    (fun rows t => do
      let c ← dictGet counts t.1
      let rows := rows.map (fun r =>
        if r.date = date then { r with counts := dictSet r.counts t.1 c }
        else r)
      match t.2.parent with
      | none => pure rows
      | some _ => do
          let pv ← dictGet percentages (t.1 ++ "%")
          pure (rows.map (fun r =>
            if r.date = date then
              { r with percentages := dictSet r.percentages (t.1 ++ "%") pv }
            else r)))
    rows

/-- Lines 262-275, the "create a new row" branch: build `new_entry` by
iterating the stages, taking counts under the stage name and percentage
values under the bare stage name (line 273), stored in the row under the
`{stage}%` column. -/
def new_row (targets : List (String × TargetDef)) (date : String)
    (counts : List (String × Nat)) (percentages : List (String × ℚ)) :
    Except String Row :=
  targets.foldlM
    (fun (r : Row) t => do
      let c ← dictGet counts t.1
      let r := { r with counts := r.counts ++ [(t.1, c)] }
      match t.2.parent with
      | none => pure r
      | some _ => do
          let p ← dictGet percentages t.1
          pure { r with percentages := r.percentages ++ [(t.1 ++ "%", p)] })
    { date := date, counts := [], percentages := [] }

/-- Lines 237-275, the body of the per-date loop of `update_file_counts`:
compute counts and percentages, then either update (guard at line 254) or
append. -/
def processDate (fs : FS) (m : RegexOracle) (conn : Conn)
    (targets : List (String × TargetDef)) (df : DataFrame) (date : String) :
    Except String DataFrame := do
  let (counts, percentages) ← computeDate fs m conn targets date
  if update_guard df date then do
    let rows ← updateExistingRows targets date counts percentages df.rows
    pure { df with rows := rows }
  else do
    let r ← new_row targets date counts percentages
    pure (dfAppendIgnoreIndex df r)

/-- Lines 216-275 of `update_file_counts(sensor, dates_to_check, conn)`:
load (or create) the table, then run the per-date loop over every date in
the scan range.  (The final `df.to_csv` of line 277 is modelled separately
as a sequence of file operations.) -/
def update_file_counts (fs : FS) (m : RegexOracle) (conn : Conn)
    (targets : List (String × TargetDef)) (dates_to_check : List String)
    (persisted : Option (List Row)) : Except String DataFrame :=
  dates_to_check.foldlM (processDate fs m conn targets) (load_df persisted)

/-! ## The showcsv endpoint (lines 142-151) -/

/-- `pandas.DataFrame.tail(n)`: the last `n` rows (all of them when the
table has fewer than `n`). -/
def df_tail (rows : List Row) (n : Nat) : List Row :=
  rows.drop (rows.length - n)

/-- Lines 144-151, `showcsv(sensor_name, days)`: render the whole loaded
table when `days == 0`, else its last `days` rows.  Rendering to HTML is out
of scope; the result is the list of rendered rows.  The route converter
`<int:days>` only admits non-negative integers. -/
def showcsv (rows : List Row) (days : Nat) : List Row :=
  if days = 0 then rows else df_tail rows days

/-- Line 142: the route registered without a `days` segment uses the
default `days = 14`. -/
def showcsv_default (rows : List Row) : List Row :=
  showcsv rows 14

/-- Modelled from the spec's words, for comparison with `showcsv`: "the last
n rows of that pipeline's table" — the suffix of length `n` (all rows when
fewer than `n` exist). -/
def spec_lastRows (rows : List Row) (n : Nat) : List Row :=
  rows.drop (rows.length - n)

/-! ## generate_dates_in_range (lines 158-167)

Calendar arithmetic of Python's `datetime`: a proleptic Gregorian date with
`toordinal` day numbering, day-stepping via `timedelta(days=i)`, and
`strftime('%Y-%m-%d')` zero-padded formatting.  `strptime` parsing of the
well-formed `MINIMUM_DATE_STRING` is modelled by passing the parsed date;
`datetime.now()` is the injected clock. -/

structure Date where
  year : Nat
  month : Nat
  day : Nat
  deriving DecidableEq, Repr

def isLeap (y : Nat) : Bool :=
  y % 4 == 0 && (y % 100 != 0 || y % 400 == 0)

def daysInMonth (y m : Nat) : Nat :=
  if m = 2 then (if isLeap y then 29 else 28)
  else if m = 4 ∨ m = 6 ∨ m = 9 ∨ m = 11 then 30
  else 31

def nextDay (dt : Date) : Date :=
  if dt.day < daysInMonth dt.year dt.month then
    { dt with day := dt.day + 1 }
  else if dt.month < 12 then
    { dt with month := dt.month + 1, day := 1 }
  else
    { year := dt.year + 1, month := 1, day := 1 }

/-- `start_date + datetime.timedelta(days=i)` (line 164). -/
def addDays (dt : Date) : Nat → Date
  | 0 => dt
  | n + 1 => nextDay (addDays dt n)

def daysBeforeMonth (y m : Nat) : Nat :=
  (List.range (m - 1)).foldl (fun acc i => acc + daysInMonth y (i + 1)) 0

/-- `datetime.date.toordinal`: day 1 is 0001-01-01 of the proleptic
Gregorian calendar. -/
def toOrdinal (dt : Date) : Nat :=
  365 * (dt.year - 1) + (dt.year - 1) / 4 - (dt.year - 1) / 100
    + (dt.year - 1) / 400 + daysBeforeMonth dt.year dt.month + dt.day

def padTo2 (n : Nat) : String :=
  if n < 10 then "0" ++ toString n else toString n

def padTo4 (n : Nat) : String :=
  if n < 10 then "000" ++ toString n
  else if n < 100 then "00" ++ toString n
  else if n < 1000 then "0" ++ toString n
  else toString n

/-- `strftime('%Y-%m-%d')` (line 165). -/
def strftimeYMD (dt : Date) : String :=
  padTo4 dt.year ++ "-" ++ padTo2 dt.month ++ "-" ++ padTo2 dt.day

/-- Lines 158-167, `generate_dates_in_range(start_date_string)` with the
clock passed explicitly: `days_between = (todays_date - start_date).days`
(both datetimes at midnight), then one formatted date per
`i in range(0, days_between+1)`. -/
def generate_dates_in_range (start_date todays_date : Date) : List String :=
  let days_between := toOrdinal todays_date - toOrdinal start_date
  (List.range (days_between + 1)).map
    (fun i => strftimeYMD (addDays start_date i))

/-! ## Saving the table (line 277)

`df.to_csv(output_file, index=False)` opens `output_file` for writing —
which truncates whatever is there — and then writes the serialized table.
The persistence layer is modelled as a store from path to contents and the
save as the sequence of operations it performs, so that partial execution
(a write failure part-way through) is an honest prefix of the sequence. -/

def FileStore : Type := String → Option String

inductive FileOp
  | openTrunc (path : String)
  | writeAll (path : String) (data : String)
  | rename (src dst : String)
  deriving DecidableEq, Repr

def applyFileOp (store : FileStore) : FileOp → FileStore
  | .openTrunc p => fun q => if q = p then some "" else store q
  | .writeAll p data => fun q => if q = p then some data else store q
  | .rename src dst => fun q =>
      if q = dst then store src
      else if q = src then none
      else store q

def applyFileOps (store : FileStore) (ops : List FileOp) : FileStore :=
  ops.foldl applyFileOp store

/-- Line 277: the operations `df.to_csv(output_file, index=False)` performs
on the store — truncate-open the target in place, then write the new
contents.  No temporary file and no rename are involved. -/
def to_csv_ops (output_file data : String) : List FileOp :=
  [.openTrunc output_file, .writeAll output_file data]

/-! ## Concrete fixtures used to evaluate the embedding -/

/-- A previously persisted row for 2018-09-01, as a loaded CSV would hold
it. -/
def prior_row : Row :=
  { date := "2018-09-01", counts := [("stereoTop", 5)], percentages := [] }

def stereo_dir : String :=
  "/home/filecounter/sites/ua-mac/raw_data/stereoTop/2019-01-01"

def rgb_dir : String :=
  "/home/filecounter/sites/ua-mac/Level_1/rgb_geotiff/2019-01-01"

/-- A file system on which the `stereoTop` raw-data directory for
2019-01-01 holds 10 timestamp entries and the `rgb_geotiff` (bin2tif)
directory holds 4. -/
def fsC2 : FS :=
  { pathExists := fun p => p == stereo_dir || p == rgb_dir
    listdir := fun p =>
      if p == stereo_dir then ["a", "b", "c", "d", "e", "f", "g", "h", "i", "j"]
      else if p == rgb_dir then ["a", "b", "c", "d"]
      else [] }

/-- A store already holding a persisted snapshot `"old"` for the
`stereoTop` pipeline's CSV. -/
def fs_prior : FileStore :=
  fun p => if p = "stereoTop_PipelineWatch.csv" then some "old" else none

/-- Index labels of every table this program builds are `RangeIndex`
integers. -/
def isNatLabel : IdxLabel → Bool
  | .nat _ => true
  | .str _ => false

def allNatIndex (df : DataFrame) : Bool :=
  df.index.all isNatLabel

/-! # Theorems -/

/-- A list of all-integer index labels never contains the string label
`'date'`. -/
theorem contains_str_date_eq_false (l : List IdxLabel)
    (h : l.all isNatLabel = true) :
    l.contains (IdxLabel.str "date") = false := by
  induction l with
  | nil => rfl
  | cons a t ih =>
    rw [List.all_cons, Bool.and_eq_true] at h
    cases a with
    | nat n =>
      have ht := ih h.2
      simpa using ht
    | str s => simp [isNatLabel] at h

/-- Claim C9: the "update existing row" branch is unreachable.  Its guard
requires the string `'date'` to be an index label, which fails for every
table whose index labels are all integers; fresh tables, CSV-loaded tables
and appended tables all have all-integer indices; hence `processDate` always
takes the append path, adding a new row even when a row for the scanned date
already exists. -/
theorem C9_update_branch_unreachable (df : DataFrame) (date : String)
    (h : allNatIndex df = true) (fs : FS) (m : RegexOracle) (conn : Conn)
    (p : List Row) (r : Row) :
    update_guard df date = false
    ∧ allNatIndex (load_df (some p)) = true
    ∧ allNatIndex (load_df none) = true
    ∧ allNatIndex (dfAppendIgnoreIndex df r) = true
    ∧ processDate fs m conn stereoTop_targets df date
        = (computeDate fs m conn stereoTop_targets date).bind
            (fun cp => (new_row stereoTop_targets date cp.1 cp.2).bind
              (fun row => Except.ok (dfAppendIgnoreIndex df row))) := by
  have hguard : update_guard df date = false := by
    unfold update_guard
    rw [contains_str_date_eq_false df.index h, Bool.false_and]
  refine ⟨hguard, ?_, rfl, ?_, ?_⟩
  · simp [allNatIndex, load_df, List.all_map, Function.comp, isNatLabel]
  · simp [allNatIndex, dfAppendIgnoreIndex, List.all_map, Function.comp,
      isNatLabel]
  · cases hc : computeDate fs m conn stereoTop_targets date with
    | error e =>
      simp only [processDate, hc]
      rfl
    | ok cp =>
      obtain ⟨counts, percentages⟩ := cp
      simp only [processDate, hc, hguard]
      cases hn : new_row stereoTop_targets date counts percentages with
      | error e2 => rfl
      | ok row => rfl

theorem C9_update_branch_unreachable_witness :
    update_guard (load_df (some [prior_row])) "2018-09-01" = false :=
  (C9_update_branch_unreachable (load_df (some [prior_row])) "2018-09-01"
    rfl emptyFS noMatch okConn [] prior_row).1

/-- Claim C1 (the code contradicts it, and its own comment "If this date
already has a row, just update"): scanning date 2018-09-01 over a table that
already holds a row for 2018-09-01 appends a second row for the same date —
length grows from 1 to 2 and the saved table holds duplicate dates — instead
of updating in place. -/
theorem C1_duplicate_date_appended :
    (update_file_counts emptyFS noMatch okConn stereoTop_targets
        ["2018-09-01"] (some [prior_row])).map
      (fun df => df.rows.map (fun r => r.date))
    = .ok ["2018-09-01", "2018-09-01"] := rfl

/-- Claim C2 (the code contradicts it): with stereoTop count 10 and bin2tif
count 4 on date 2019-01-01, the emitted bin2tif percentage is 0, not the
exact ratio 4/10 — Python 2 `/` on ints floors before `float` converts. -/
theorem C2_percentage_floor_division :
    ((computeDate fsC2 noMatch okConn stereoTop_targets "2019-01-01").map
      (fun cp => (cp.1.lookup "stereoTop", cp.1.lookup "bin2tif",
        cp.2.lookup "bin2tif"))
    = .ok (some 10, some 4, some 0)) ∧ (0 : ℚ) ≠ 4 / 10 :=
  ⟨rfl, by norm_num⟩

/-- Claim C3 counterexample: a connection failure on the first scanned date
aborts the whole pipeline pass — `update_file_counts` propagates the error,
so the second date is never processed and nothing is saved, rather than
skipping the one stage/date and continuing. -/
theorem C3_failure_aborts_pass :
    update_file_counts emptyFS noMatch failConn stereoTop_targets
      ["2019-01-01", "2019-01-02"] (some [prior_row])
    = .error "connection failure" := rfl

/-- Claim C3 as amended: an external-database error while counting a stage
propagates out of the pass — for every remaining date list and every prior
table state, the whole `update_file_counts` call returns the error, so no
subsequent date is processed and the table is not rewritten (the prior
snapshot survives only because no write happens at all). -/
theorem C3_amended_error_propagates (dates : List String)
    (persisted : Option (List Row)) (d : String) :
    update_file_counts emptyFS noMatch failConn stereoTop_targets
      (d :: dates) persisted = .error "connection failure" := rfl

/-- Claim C4 counterexample: the save performed by line 277 truncates the
output file in place, so the state after the first operation (where a failed
write stops) holds neither the prior snapshot `"old"` nor the new one — the
previously persisted snapshot is destroyed, refuting the
write-to-temp-then-replace discipline. -/
theorem C4_truncate_destroys_snapshot :
    applyFileOps fs_prior
        ((to_csv_ops "stereoTop_PipelineWatch.csv" "new").take 1)
        "stereoTop_PipelineWatch.csv" = some ""
    ∧ (some "" : Option String) ≠ some "old"
    ∧ (some "" : Option String) ≠ some "new" :=
  ⟨rfl, by decide, by decide⟩

/-- Claim C4 as amended: saving writes the table directly to the output
path — a truncating open followed by a write of the new contents, with no
temporary file and no rename — so a completed save does replace the
snapshot, but the intermediate state (where a failure would stop) holds an
empty file rather than the prior snapshot. -/
theorem C4_amended_save_in_place (store : FileStore) (p data : String) :
    to_csv_ops p data = [FileOp.openTrunc p, FileOp.writeAll p data]
    ∧ applyFileOps store (to_csv_ops p data) p = some data
    ∧ applyFileOps store ((to_csv_ops p data).take 1) p = some "" := by
  refine ⟨rfl, ?_, ?_⟩ <;>
    simp [to_csv_ops, applyFileOps, applyFileOp]

/-- Claim C5 counterexample: with child count 25 and parent count 10 the
stored ratio is 2, outside [0,1] — the claim's range quantifies over every
pair of non-negative counts. -/
theorem C5_ratio_exceeds_one : ¬ (pct 25 10 ≤ 1) := by decide

/-- Claim C5 as amended: the stored ratio is non-negative, is 0 when the
parent count is 0, and lies in [0,1] whenever the child count does not
exceed the parent count. -/
theorem C5_amended_ratio_bounds (child parent : Nat) (h : child ≤ parent) :
    0 ≤ pct child parent ∧ pct child parent ≤ 1 ∧ pct child 0 = 0 := by
  refine ⟨?_, ?_, by simp [pct]⟩
  · unfold pct
    split
    · exact Nat.cast_nonneg _
    · exact le_refl 0
  · unfold pct
    split
    · rename_i hp
      have h1 : child / parent ≤ 1 := by
        calc child / parent ≤ parent / parent := Nat.div_le_div_right h
        _ = 1 := Nat.div_self hp
      exact_mod_cast h1
    · norm_num

theorem C5_amended_ratio_bounds_witness :
    0 ≤ pct 4 10 ∧ pct 4 10 ≤ 1 ∧ pct 4 0 = 0 :=
  C5_amended_ratio_bounds 4 10 (by decide)

/-- Claim C6: when the date directory does not exist, both the
directory-enumeration (`timestamp`) and the pattern-matched (`regex`) counts
return 0 successfully — absence is not an error. -/
theorem C6_missing_dir_counts_zero (fs : FS) (m : RegexOracle) (conn : Conn)
    (td : TargetDef) (date : String)
    (hdir : fs.pathExists (pathJoin td.path date) = false)
    (ht : td.type = CountType.timestamp ∨ td.type = CountType.regex) :
    perform_count fs m conn td date = .ok 0 := by
  rcases ht with h | h <;> simp [perform_count, h, hdir]

theorem C6_missing_dir_counts_zero_witness :
    perform_count emptyFS noMatch okConn
      { type := CountType.timestamp, path := "/some/root/" } "2019-01-01"
      = .ok 0 :=
  C6_missing_dir_counts_zero emptyFS noMatch okConn
    { type := CountType.timestamp, path := "/some/root/" } "2019-01-01"
    rfl (Or.inl rfl)

/-- Claim C7: with a fixed clock reading 2018-09-03, the date range
generated from 2018-09-01 is exactly the inclusive ordered sequence
2018-09-01, 2018-09-02, 2018-09-03. -/
theorem C7_date_range_concrete :
    generate_dates_in_range ⟨2018, 9, 1⟩ ⟨2018, 9, 3⟩
    = ["2018-09-01", "2018-09-02", "2018-09-03"] := by decide

/-- Claim C8 counterexample: requesting the view with row count 0 returns
the whole table, not the last 0 rows the claim's "for every requested n"
demands. -/
theorem C8_zero_rows_returns_all :
    showcsv [prior_row] 0 = [prior_row]
    ∧ spec_lastRows [prior_row] 0 = []
    ∧ showcsv [prior_row] 0 ≠ spec_lastRows [prior_row] 0 :=
  ⟨rfl, rfl, by decide⟩

/-- Claim C8 as amended: for every requested n > 0 the view is exactly the
last n rows of the persisted table (all rows when fewer exist), n = 0
returns the entire table, and an absent row-count parameter defaults to the
last 14 rows. -/
theorem C8_amended_tail_view (rows : List Row) (n : Nat) :
    (0 < n → showcsv rows n = spec_lastRows rows n)
    ∧ showcsv rows 0 = rows
    ∧ showcsv_default rows = spec_lastRows rows 14 := by
  refine ⟨fun hn => ?_, rfl, rfl⟩
  simp [showcsv, df_tail, spec_lastRows, Nat.pos_iff_ne_zero.mp hn]

theorem C8_amended_tail_view_witness :
    showcsv [prior_row] 2 = spec_lastRows [prior_row] 2 :=
  (C8_amended_tail_view [prior_row] 2).1 (by decide)

/-- Claim C10: requesting the view with row count 0 returns the entire
table, while every n > 0 yields exactly the last min(n, length) rows. -/
theorem C10_zero_shows_whole_table (rows : List Row) (n : Nat) :
    showcsv rows 0 = rows
    ∧ (0 < n →
        showcsv rows n = rows.drop (rows.length - n)
        ∧ (showcsv rows n).length = min n rows.length) := by
  refine ⟨rfl, fun hn => ⟨?_, ?_⟩⟩
  · simp [showcsv, df_tail, Nat.pos_iff_ne_zero.mp hn]
  · simp [showcsv, df_tail, Nat.pos_iff_ne_zero.mp hn, List.length_drop]
    omega

theorem C10_zero_shows_whole_table_witness :
    showcsv [prior_row] 3 = [prior_row].drop ([prior_row].length - 3)
    ∧ (showcsv [prior_row] 3).length = min 3 [prior_row].length :=
  (C10_zero_shows_whole_table [prior_row] 3).2 (by decide)

end FileCounter
